import Mathlib

/-!
# A verification development for the nomouse CLI (`src/index.js`)

Shallow embedding of the stateful core of the nomouse CLI: the per-file
session timer (`registerFileGenerated`, `registerFileWinded`, `pauseTimer`,
`resumeTimer`, `retrieveSecondsSpent`, `retrieveSecondsSinceLastWind`) and the
command actions (`gen`, `run`, `wind`, `resume`) that drive it.

Modelling conventions:
* Timestamps are integers in milliseconds (the JS code stores ISO strings and
  subtracts `Date` objects, yielding milliseconds); `Math.floor(x / 1000)` is
  `Int.fdiv x 1000`.
* The several `new Date()` calls inside one function body are modelled as a
  single instant `now` passed as a parameter.
* `state.fileTimestamps` (a JS object keyed by filename) is an association
  list accessed only through `lookupTs` / `setTs`.
* A JS field that may be absent or `null` is an `Option`; `(x.blank || 0)`
  is `Option.getD · 0`.
* `spawnSync` results carry `status : number | null`; `null` (launch failure)
  is `none`, and the JS test `status !== 0` is `statusNonzero`.
* File-system and template existence checks are Boolean parameters; process
  spawning is recorded as an event trace, and the exit statuses the
  environment would produce are parameters.
-/

namespace Nomouse

/-- One entry of `state.fileTimestamps` (src/index.js:574-629): the per-file
session record.  `registerFileGenerated` creates `{ generated, resumed }`, so
the remaining fields start absent (`none`). -/
structure FileRecord where
  generated : Int
  resumed : Int
  paused : Option Int := none
  blank : Option Int := none
  lastWinded : Option Int := none
deriving Repr, DecidableEq

/-- The persisted state object (src/index.js:538-543 `loadState` default
shape): `lastGenerated`, `lastRun`, the `stats` counters, and the
`fileTimestamps` map. -/
structure GlobalState where
  lastGenerated : Option String := none
  lastRun : Option String := none
  generatedCount : Nat := 0
  runCount : Nat := 0
  fileTimestamps : List (String × FileRecord) := []
deriving Repr, DecidableEq

def emptyState : GlobalState := {}

/-- Read `state.fileTimestamps[filename]`. -/
def lookupTs (s : GlobalState) (f : String) : Option FileRecord :=
  s.fileTimestamps.lookup f

/-- Write `state.fileTimestamps[filename] = r` (replace the binding). -/
def setTs (s : GlobalState) (f : String) (r : FileRecord) : GlobalState :=
  { s with fileTimestamps :=
      (f, r) :: s.fileTimestamps.filter (fun p => !(p.1 == f)) }

/-- src/index.js:574-581 `registerFileGenerated`: unconditionally replaces the
record for `filename` with a fresh `{ generated = now, resumed = now }`. -/
def registerFileGenerated (s : GlobalState) (f : String) (now : Int) :
    GlobalState :=
  setTs s f { generated := now, resumed := now }

/-- src/index.js:584-590 `registerFileWinded`: no-op when `filename` has no
record; otherwise sets only `lastWinded = now`. -/
def registerFileWinded (s : GlobalState) (f : String) (now : Int) :
    GlobalState :=
  match lookupTs s f with
  | none => s
  | some r => setTs s f { r with lastWinded := some now }

/-- src/index.js:592-598 `pauseTimer`: no-op (returns `undefined`, here
`none`) when untracked; otherwise sets `paused = now` — with no check of the
current pause state — and returns the timestamp. -/
def pauseTimer (s : GlobalState) (f : String) (now : Int) :
    GlobalState × Option Int :=
  match lookupTs s f with
  | none => (s, none)
  | some r => (setTs s f { r with paused := some now }, some now)

/-- src/index.js:600-610 `resumeTimer`: returns `0` when untracked and `-1`
when the record has no (or a `null`) `paused` timestamp, mutating nothing in
either case; otherwise computes `elapsed = now - paused`, sets
`resumed = now`, `paused = null`, `blank = elapsed` (an overwrite, not an
accumulation), and returns `Math.floor(elapsed / 1000)`. -/
def resumeTimer (s : GlobalState) (f : String) (now : Int) :
    GlobalState × Int :=
  match lookupTs s f with
  | none => (s, 0)
  | some r =>
    match r.paused with
    | none => (s, -1)
    | some p =>
      let elapsed := now - p
      (setTs s f { r with resumed := now, paused := none,
                          blank := some elapsed },
       elapsed.fdiv 1000)

/-- src/index.js:612-618 `retrieveSecondsSpent`: `-1` when untracked;
otherwise `(paused - generated + (blank || 0))` when paused, else
`(now - generated + (blank || 0))`, floored to whole seconds.  Note the code
ADDS `blank`. -/
def retrieveSecondsSpent (s : GlobalState) (f : String) (now : Int) : Int :=
  match lookupTs s f with
  | none => -1
  | some r =>
    let spent :=
      match r.paused with
      | some p => p - r.generated + r.blank.getD 0
      | none => now - r.generated + r.blank.getD 0
    spent.fdiv 1000

/-- src/index.js:620-625 `retrieveSecondsSinceLastWind`: `-1` when untracked
or never winded; otherwise `Math.floor((now - lastWinded) / 1000)`. -/
def retrieveSecondsSinceLastWind (s : GlobalState) (f : String) (now : Int) :
    Int :=
  match lookupTs s f with
  | none => -1
  | some r =>
    match r.lastWinded with
    | none => -1
    | some lw => (now - lw).fdiv 1000

/-- Modelled from the spec (§4.1 `totalActiveSeconds`), for comparison with
`retrieveSecondsSpent`: if Active, `now - generatedAt - accumulatedBlank`; if
Paused, `pausedAt - generatedAt - accumulatedBlank`; in whole seconds
(`-1` kept for the untracked case, as in the code). -/
def totalActiveSecondsSpec (s : GlobalState) (f : String) (now : Int) : Int :=
  match lookupTs s f with
  | none => -1
  | some r =>
    let active :=
      match r.paused with
      | some p => p - r.generated - r.blank.getD 0
      | none => now - r.generated - r.blank.getD 0
    active.fdiv 1000

/-- src/index.js:644-666 `gen` command action: when a template for the
extension exists, writes the file, sets `lastGenerated`, bumps
`stats.generated`, and calls `registerFileGenerated` — also on a filename
that is already tracked.  Without a template the state is untouched. -/
def genCommand (s : GlobalState) (f : String) (templateExists : Bool)
    (now : Int) : GlobalState :=
  if templateExists then
    registerFileGenerated
      { s with lastGenerated := some f,
               generatedCount := s.generatedCount + 1 } f now
  else s

/-- The target file of the `wind` / `pause` / `resume` commands:
`state.lastRun || state.lastGenerated` (src/index.js:898, 982, 1008). -/
def targetFileOf (s : GlobalState) : Option String :=
  s.lastRun.orElse (fun _ => s.lastGenerated)

/-- What the `wind` command action reports. -/
inductive WindMsg where
  | noFileYet : WindMsg
  | fileGone : WindMsg
  | copied : Int → Option Int → WindMsg
deriving Repr, DecidableEq

/-- src/index.js:886-922 `wind` command action: picks the target file,
computes `sinceLastWind` from the OLD `lastWinded` BEFORE calling
`registerFileWinded`, then reports the total seconds spent (computed on the
updated state) and, only when `sinceLastWind >= 0`, the seconds since the
last wind. -/
def windCommand (s : GlobalState) (fileExists : Bool) (now : Int) :
    GlobalState × WindMsg :=
  match targetFileOf s with
  | none => (s, .noFileYet)
  | some target =>
    if fileExists then
      let sinceLastWind := retrieveSecondsSinceLastWind s target now
      let s1 := registerFileWinded s target now
      (s1, .copied (retrieveSecondsSpent s1 target now)
        (if sinceLastWind ≥ 0 then some sinceLastWind else none))
    else (s, .fileGone)

/-- What the `resume` command action reports (src/index.js:1015-1026):
`alreadyRunning` on the `-1` sentinel, `noActiveFile` ("No file has been
active yet") on `0`, else the success report with the elapsed seconds. -/
inductive ResumeMsg where
  | noFileYet : ResumeMsg
  | fileGone : ResumeMsg
  | alreadyRunning : ResumeMsg
  | noActiveFile : ResumeMsg
  | resumed : Int → ResumeMsg
deriving Repr, DecidableEq

/-- src/index.js:994-1027 `resume` command action. -/
def resumeCommand (s : GlobalState) (fileExists : Bool) (now : Int) :
    GlobalState × ResumeMsg :=
  match targetFileOf s with
  | none => (s, .noFileYet)
  | some target =>
    if fileExists then
      let res := resumeTimer s target now
      if res.2 = -1 then (res.1, .alreadyRunning)
      else if res.2 = 0 then (res.1, .noActiveFile)
      else (res.1, .resumed res.2)
    else (s, .fileGone)

/-- A subprocess spawned by the `run` command action, with the program it
invokes: a compile-phase spawn (`g++` / `gcc` / `javac`) or a run-phase spawn
(`node` / `python` / the compiled artifact / `java`). -/
inductive RunEvent where
  | spawnCompile : String → RunEvent
  | spawnRun : String → RunEvent
deriving Repr, DecidableEq

def RunEvent.isRunSpawn : RunEvent → Bool
  | .spawnRun _ => true
  | .spawnCompile _ => false

/-- The observable outcome of the `run` command action: which message path
terminated it.  `completed` is the `✓ Run completed` line reached through a
handled toolchain; `unhandledCompleted` is the default branch (no specific
handler) which also falls through to that line. -/
inductive RunOutcome where
  | notFound : RunOutcome
  | compileFailure : Option Int → RunOutcome
  | runtimeFailure : Option Int → RunOutcome
  | completed : RunOutcome
  | unhandledCompleted : RunOutcome
deriving Repr, DecidableEq

/-- The JS test `result.status !== 0` on a `spawnSync` result whose `status`
is `number | null` (`null`, i.e. `none`, when the process failed to launch). -/
def statusNonzero : Option Int → Bool
  | some c => c != 0
  | none => true

/-- Whether the toolchain selected by the `run` command's `switch` for this
extension has a compile phase (`g++`, `gcc`, or `javac` runs first). -/
def hasCompilePhase (ext : String) : Bool :=
  ext == ".cpp" || ext == ".cc" || ext == ".cxx" || ext == ".c" ||
    ext == ".java"

/-- The `run` command action's result: the updated state, the trace of
spawned subprocesses in order, and the outcome. -/
structure RunResult where
  state : GlobalState
  events : List RunEvent
  outcome : RunOutcome
deriving Repr, DecidableEq

/-- src/index.js:737-884 `run` command action.  `ext` is
`path.extname filename` (an external library call), `fileExists` the result
of `fs.pathExists filename`, and `compileStatus` / `runStatus` the exit
statuses the environment would hand each phase's `spawnSync`.  The action:
1. returns `NotFound` before any state update or spawn when the file is
   missing (line 743);
2. otherwise records `lastRun = filename`, bumps `stats.run`, and saves
   (lines 748-750);
3. dispatches on the extension: interpreted toolchains spawn once; compiled
   toolchains spawn the compiler and return `compileFailure` — without
   spawning the run phase — when its status is nonzero (or `null`), else
   spawn the artifact and report `runtimeFailure` or fall through to the
   `✓ Run completed` line. -/
def runCommand (s : GlobalState) (filename ext : String) (fileExists : Bool)
    (compileStatus runStatus : Option Int) : RunResult :=
  if fileExists then
    let s1 := { s with lastRun := some filename, runCount := s.runCount + 1 }
    if ext == ".js" then
      if statusNonzero runStatus then
        ⟨s1, [.spawnRun "node"], .runtimeFailure runStatus⟩
      else ⟨s1, [.spawnRun "node"], .completed⟩
    else if ext == ".py" then
      if statusNonzero runStatus then
        ⟨s1, [.spawnRun "python"], .runtimeFailure runStatus⟩
      else ⟨s1, [.spawnRun "python"], .completed⟩
    else if ext == ".cpp" || ext == ".cc" || ext == ".cxx" then
      if statusNonzero compileStatus then
        ⟨s1, [.spawnCompile "g++"], .compileFailure compileStatus⟩
      else if statusNonzero runStatus then
        ⟨s1, [.spawnCompile "g++", .spawnRun "artifact"],
          .runtimeFailure runStatus⟩
      else ⟨s1, [.spawnCompile "g++", .spawnRun "artifact"], .completed⟩
    else if ext == ".c" then
      if statusNonzero compileStatus then
        ⟨s1, [.spawnCompile "gcc"], .compileFailure compileStatus⟩
      else if statusNonzero runStatus then
        ⟨s1, [.spawnCompile "gcc", .spawnRun "./artifact"],
          .runtimeFailure runStatus⟩
      else ⟨s1, [.spawnCompile "gcc", .spawnRun "./artifact"], .completed⟩
    else if ext == ".java" then
      if statusNonzero compileStatus then
        ⟨s1, [.spawnCompile "javac"], .compileFailure compileStatus⟩
      else if statusNonzero runStatus then
        ⟨s1, [.spawnCompile "javac", .spawnRun "java"],
          .runtimeFailure runStatus⟩
      else ⟨s1, [.spawnCompile "javac", .spawnRun "java"], .completed⟩
    else ⟨s1, [], .unhandledCompleted⟩
  else ⟨s, [], .notFound⟩

/-! ## General lemmas about the state map -/

theorem lookupTs_setTs_self (s : GlobalState) (f : String) (r : FileRecord) :
    lookupTs (setTs s f r) f = some r := by
  simp [lookupTs, setTs, List.lookup]

/-! ## Concrete states used to exercise the operations -/

/-- A record paused at 10 s with 5 s of recorded blank time. -/
def exPausedRecord : FileRecord :=
  { generated := 0, resumed := 20000, paused := some 10000,
    blank := some 5000 }

/-- The same record, currently active. -/
def exActiveBlankRecord : FileRecord :=
  { generated := 0, resumed := 20000, paused := none, blank := some 5000 }

def exPausedState : GlobalState :=
  { emptyState with fileTimestamps := [("a.cpp", exPausedRecord)] }

def exActiveBlankState : GlobalState :=
  { emptyState with fileTimestamps := [("a.cpp", exActiveBlankRecord)] }

/-- A freshly generated, still-active record. -/
def exActiveRecord : FileRecord := { generated := 0, resumed := 0 }

def exActiveState : GlobalState :=
  { emptyState with
    lastRun := some "a.cpp"
    fileTimestamps := [("a.cpp", exActiveRecord)] }

/-- Generate "a.cpp" at t = 0 s, pause at 10 s, resume at 20 s. -/
def exFirstCycle : GlobalState :=
  (resumeTimer
    (pauseTimer (genCommand emptyState "a.cpp" true 0) "a.cpp" 10000).1
    "a.cpp" 20000).1

/-- Continue with a second cycle: pause at 30 s, resume at 31 s. -/
def exSecondCycle : GlobalState :=
  (resumeTimer (pauseTimer exFirstCycle "a.cpp" 30000).1 "a.cpp" 31000).1

/-- Generate "a.cpp" at t = 0 s and pause at 10 s. -/
def exOncePaused : GlobalState :=
  (pauseTimer (genCommand emptyState "a.cpp" true 0) "a.cpp" 10000).1

/-- Tracked, last-run "a.cpp", paused at 10 s (for a sub-second resume). -/
def exSubSecondPaused : GlobalState :=
  { emptyState with
    lastRun := some "a.cpp"
    fileTimestamps :=
      [("a.cpp", { generated := 0, resumed := 0, paused := some 10000 })] }

/-- `lastRun` points at "a.cpp" but no session record exists for it. -/
def exUntrackedLastRun : GlobalState :=
  { emptyState with lastRun := some "a.cpp" }

/-- Tracked, last-run "a.cpp", last winded at 2 s. -/
def exWindedRecord : FileRecord :=
  { generated := 0, resumed := 0, lastWinded := some 2000 }

def exWindedState : GlobalState :=
  { emptyState with
    lastRun := some "a.cpp"
    fileTimestamps := [("a.cpp", exWindedRecord)] }

/-! ## The claims -/

/-- C1: for every file whose toolchain has a compile phase (`.cpp`/`.cc`/
`.cxx`, `.c`, `.java`), if the compile subprocess exits non-zero the run
command reports a compile failure, the run subprocess is never spawned, and
the caller never observes a run-succeeded outcome. -/
theorem runCommand_compileFailure_stops (s : GlobalState)
    (filename ext : String) (c : Int) (runStatus : Option Int)
    (hext : hasCompilePhase ext = true) (hc : c ≠ 0) :
    (runCommand s filename ext true (some c) runStatus).outcome
        = RunOutcome.compileFailure (some c) ∧
    (∀ e ∈ (runCommand s filename ext true (some c) runStatus).events,
        e.isRunSpawn = false) ∧
    (runCommand s filename ext true (some c) runStatus).outcome
        ≠ RunOutcome.completed ∧
    (runCommand s filename ext true (some c) runStatus).outcome
        ≠ RunOutcome.unhandledCompleted := by
  simp only [hasCompilePhase, Bool.or_eq_true, beq_iff_eq] at hext
  rcases hext with ((((h | h) | h) | h) | h) <;>
    subst h <;>
    refine ⟨?_, ?_, ?_, ?_⟩ <;>
    simp [runCommand, statusNonzero, hc, RunEvent.isRunSpawn]

theorem runCommand_compileFailure_stops_witness :
    hasCompilePhase ".cpp" = true ∧ (1 : Int) ≠ 0 ∧
    ((runCommand emptyState "a.cpp" ".cpp" true (some 1) (some 0)).outcome
        = RunOutcome.compileFailure (some 1) ∧
     (∀ e ∈ (runCommand emptyState "a.cpp" ".cpp" true (some 1)
        (some 0)).events, e.isRunSpawn = false) ∧
     (runCommand emptyState "a.cpp" ".cpp" true (some 1) (some 0)).outcome
        ≠ RunOutcome.completed ∧
     (runCommand emptyState "a.cpp" ".cpp" true (some 1) (some 0)).outcome
        ≠ RunOutcome.unhandledCompleted) :=
  ⟨by decide, by decide,
    runCommand_compileFailure_stops emptyState "a.cpp" ".cpp" 1 (some 0)
      (by decide) (by decide)⟩

/-- C2 (code bug): `retrieveSecondsSpent` ADDS `blank` where the spec's
`totalActiveSeconds` subtracts the accumulated paused time.  On a record
generated at 0 s, paused at 10 s with 5 s of blank time, the code reports
15 s while the spec formula gives 5 s; on the active variant at now = 20 s
the code reports 25 s while the spec formula gives 15 s. -/
theorem retrieveSecondsSpent_adds_blank :
    retrieveSecondsSpent exPausedState "a.cpp" 20000 = 15 ∧
    totalActiveSecondsSpec exPausedState "a.cpp" 20000 = 5 ∧
    retrieveSecondsSpent exActiveBlankState "a.cpp" 20000 = 25 ∧
    totalActiveSecondsSpec exActiveBlankState "a.cpp" 20000 = 15 := by
  decide

/-- C3 (code bug): `resumeTimer` OVERWRITES `blank` with the latest paused
interval instead of accumulating.  After a 10 s pause `blank = 10000` ms, but
after a further 1 s pause/resume cycle `blank` drops to `1000` ms — not the
accumulated `11000` ms, and not monotonically non-decreasing.  The
`resumed`/`paused` updates and the whole-second return value do follow the
claim. -/
theorem resumeTimer_blank_overwritten :
    ((lookupTs exFirstCycle "a.cpp").bind FileRecord.blank) = some 10000 ∧
    ((lookupTs exSecondCycle "a.cpp").bind FileRecord.blank) = some 1000 ∧
    ((lookupTs exSecondCycle "a.cpp").bind FileRecord.paused) = none ∧
    ((lookupTs exSecondCycle "a.cpp").map FileRecord.resumed) = some 31000 ∧
    (resumeTimer (pauseTimer exFirstCycle "a.cpp" 30000).1 "a.cpp" 31000).2
        = 1 := by
  decide

/-- C4 counterexample: `generatedAt` is NOT set exactly once — a later `gen`
of the same filename replaces the whole record, moving `generated` from the
first timestamp (1 s) to the new one (5 s). -/
theorem generatedAt_reset_on_regen :
    ((lookupTs (genCommand emptyState "a.cpp" true 1000) "a.cpp").map
        FileRecord.generated) = some 1000 ∧
    ((lookupTs (genCommand (genCommand emptyState "a.cpp" true 1000) "a.cpp"
        true 5000) "a.cpp").map FileRecord.generated) = some 5000 := by
  decide

/-- C4 amended: `generatedAt` is set to `now` by every successful `gen` of
the filename (a regenerate resets the whole record rather than preserving
the original timestamp), and `pause`, `resume` and `wind` never change it. -/
theorem generatedAt_frame (s : GlobalState) (f : String) (now : Int) :
    ((lookupTs (genCommand s f true now) f).map FileRecord.generated)
        = some now ∧
    ((lookupTs (pauseTimer s f now).1 f).map FileRecord.generated)
        = ((lookupTs s f).map FileRecord.generated) ∧
    ((lookupTs (resumeTimer s f now).1 f).map FileRecord.generated)
        = ((lookupTs s f).map FileRecord.generated) ∧
    ((lookupTs (registerFileWinded s f now) f).map FileRecord.generated)
        = ((lookupTs s f).map FileRecord.generated) := by
  refine ⟨?_, ?_, ?_, ?_⟩
  · simp [genCommand, registerFileGenerated, lookupTs_setTs_self]
  · cases h : lookupTs s f with
    | none => simp [pauseTimer, h]
    | some r => simp [pauseTimer, h, lookupTs_setTs_self]
  · cases h : lookupTs s f with
    | none => simp [resumeTimer, h]
    | some r =>
      cases hp : r.paused with
      | none => simp [resumeTimer, h, hp]
      | some p => simp [resumeTimer, h, hp, lookupTs_setTs_self]
  · cases h : lookupTs s f with
    | none => simp [registerFileWinded, h]
    | some r => simp [registerFileWinded, h, lookupTs_setTs_self]

/-- C5 (code bug): `pauseTimer` performs no Paused-state check, so a second
pause on an already-paused file is not rejected: it overwrites `pausedAt`
(10 s becomes 20 s), silently dropping the earlier paused interval from the
accounting, while `blank` stays unset. -/
theorem pauseTimer_double_pause :
    ((lookupTs exOncePaused "a.cpp").bind FileRecord.paused) = some 10000 ∧
    ((lookupTs (pauseTimer exOncePaused "a.cpp" 20000).1 "a.cpp").bind
        FileRecord.paused) = some 20000 ∧
    ((lookupTs (pauseTimer exOncePaused "a.cpp" 20000).1 "a.cpp").bind
        FileRecord.blank) = none := by
  decide

/-- C6: `resumeTimer` on a tracked but un-paused (Active) file is a pure
no-op returning the `-1` "already active" sentinel, while an untracked file
gets the distinct `0` sentinel; neither call mutates the state, so
`accumulatedBlank` and every other field are untouched. -/
theorem resumeTimer_already_active (s t : GlobalState) (f : String)
    (now : Int) (r : FileRecord) (h : lookupTs s f = some r)
    (hp : r.paused = none) (ht : lookupTs t f = none) :
    resumeTimer s f now = (s, -1) ∧ resumeTimer t f now = (t, 0) ∧
    (resumeTimer s f now).2 ≠ (resumeTimer t f now).2 := by
  refine ⟨?_, ?_, ?_⟩ <;> simp [resumeTimer, h, hp, ht]

theorem resumeTimer_already_active_witness :
    lookupTs exActiveState "a.cpp" = some exActiveRecord ∧
    exActiveRecord.paused = none ∧
    lookupTs emptyState "a.cpp" = none ∧
    (resumeTimer exActiveState "a.cpp" 5000 = (exActiveState, -1) ∧
     resumeTimer emptyState "a.cpp" 5000 = (emptyState, 0) ∧
     (resumeTimer exActiveState "a.cpp" 5000).2
        ≠ (resumeTimer emptyState "a.cpp" 5000).2) :=
  ⟨by decide, by decide, by decide,
    resumeTimer_already_active exActiveState emptyState "a.cpp" 5000
      exActiveRecord (by decide) (by decide) (by decide)⟩

/-- C7: the `wind` command computes `secondsSinceLastWind` from the OLD
`lastWinded` before `registerFileWinded` runs (suppressed — the `-1`
sentinel — when never winded), and changes no other field of the target's
record: afterwards the record is exactly the old one with
`lastWinded = now`, and the seconds-spent accounting is unchanged. -/
theorem windCommand_old_lastWinded_frame (s : GlobalState) (f : String)
    (now : Int) (r : FileRecord) (hlr : s.lastRun = some f)
    (h : lookupTs s f = some r) :
    lookupTs (windCommand s true now).1 f
        = some { r with lastWinded := some now } ∧
    retrieveSecondsSpent (windCommand s true now).1 f now
        = retrieveSecondsSpent s f now ∧
    (windCommand s true now).2 = WindMsg.copied
      (retrieveSecondsSpent s f now)
      (match r.lastWinded with
       | none => none
       | some lw =>
         if (now - lw).fdiv 1000 ≥ 0 then some ((now - lw).fdiv 1000)
         else none) := by
  have htarget : targetFileOf s = some f := by
    simp [targetFileOf, hlr, Option.orElse]
  have hrec : lookupTs (registerFileWinded s f now) f
      = some { r with lastWinded := some now } := by
    simp [registerFileWinded, h, lookupTs_setTs_self]
  have hspent : retrieveSecondsSpent (registerFileWinded s f now) f now
      = retrieveSecondsSpent s f now := by
    simp [retrieveSecondsSpent, h, hrec]
  refine ⟨?_, ?_, ?_⟩
  · simp [windCommand, htarget, hrec]
  · simp [windCommand, htarget, hspent]
  · cases hlw : r.lastWinded with
    | none =>
      simp [windCommand, htarget, hspent, retrieveSecondsSinceLastWind, h,
        hlw]
    | some lw =>
      simp [windCommand, htarget, hspent, retrieveSecondsSinceLastWind, h,
        hlw]

theorem windCommand_old_lastWinded_frame_witness :
    exWindedState.lastRun = some "a.cpp" ∧
    lookupTs exWindedState "a.cpp" = some exWindedRecord ∧
    (lookupTs (windCommand exWindedState true 5000).1 "a.cpp"
        = some { exWindedRecord with lastWinded := some 5000 } ∧
     retrieveSecondsSpent (windCommand exWindedState true 5000).1 "a.cpp"
        5000 = retrieveSecondsSpent exWindedState "a.cpp" 5000 ∧
     (windCommand exWindedState true 5000).2 = WindMsg.copied
       (retrieveSecondsSpent exWindedState "a.cpp" 5000)
       (match exWindedRecord.lastWinded with
        | none => none
        | some lw =>
          if ((5000 : Int) - lw).fdiv 1000 ≥ 0
          then some (((5000 : Int) - lw).fdiv 1000) else none)) :=
  ⟨by decide, by decide,
    windCommand_old_lastWinded_frame exWindedState "a.cpp" 5000
      exWindedRecord (by decide) (by decide)⟩

/-- C8: when the target file does not exist the `run` command returns the
not-found outcome with the state untouched and no subprocess spawned. -/
theorem runCommand_missing_file (s : GlobalState) (filename ext : String)
    (compileStatus runStatus : Option Int) :
    runCommand s filename ext false compileStatus runStatus
      = ⟨s, [], RunOutcome.notFound⟩ := rfl

/-- C9: for an existing file whose compilation fails, the `run` command has
already recorded `lastRun = filename` (and bumped the run counter), yet no
run-phase subprocess is spawned. -/
theorem runCommand_compileFailure_records_lastRun (s : GlobalState)
    (filename ext : String) (c : Int) (runStatus : Option Int)
    (hext : hasCompilePhase ext = true) (hc : c ≠ 0) :
    (runCommand s filename ext true (some c) runStatus).state.lastRun
        = some filename ∧
    (runCommand s filename ext true (some c) runStatus).state.runCount
        = s.runCount + 1 ∧
    (∀ e ∈ (runCommand s filename ext true (some c) runStatus).events,
        e.isRunSpawn = false) := by
  simp only [hasCompilePhase, Bool.or_eq_true, beq_iff_eq] at hext
  rcases hext with ((((h | h) | h) | h) | h) <;>
    subst h <;>
    refine ⟨?_, ?_, ?_⟩ <;>
    simp [runCommand, statusNonzero, hc, RunEvent.isRunSpawn]

theorem runCommand_compileFailure_records_lastRun_witness :
    hasCompilePhase ".java" = true ∧ (2 : Int) ≠ 0 ∧
    ((runCommand emptyState "A.java" ".java" true (some 2)
        (some 0)).state.lastRun = some "A.java" ∧
     (runCommand emptyState "A.java" ".java" true (some 2)
        (some 0)).state.runCount = emptyState.runCount + 1 ∧
     (∀ e ∈ (runCommand emptyState "A.java" ".java" true (some 2)
        (some 0)).events, e.isRunSpawn = false)) :=
  ⟨by decide, by decide,
    runCommand_compileFailure_records_lastRun emptyState "A.java" ".java" 2
      (some 0) (by decide) (by decide)⟩

/-- C10 (implicit): `resumeTimer`'s success value collides with its
"not tracked" sentinel.  A file paused for half a second resumes
successfully with return value `0` — exactly what an untracked file
returns — so the `resume` command prints the untracked "No file has been
active yet" message for a legitimate sub-second resume, the same message it
prints when `lastRun` points at a file with no record. -/
theorem resumeTimer_subsecond_collision :
    (lookupTs exSubSecondPaused "a.cpp").isSome = true ∧
    (resumeTimer exSubSecondPaused "a.cpp" 10500).2 = 0 ∧
    lookupTs emptyState "a.cpp" = none ∧
    (resumeTimer emptyState "a.cpp" 10500).2 = 0 ∧
    (resumeCommand exSubSecondPaused true 10500).2
        = ResumeMsg.noActiveFile ∧
    (resumeCommand exUntrackedLastRun true 10500).2
        = ResumeMsg.noActiveFile := by
  decide

end Nomouse
